import Mathlib

/-!
Shallow embedding of the monitoring engine of the MongoDB-Monitor repository
(`src/monitors/mongoMonitor.js`, `src/monitors/healthCheck.js`) for
verification of its natural-language specification.

JavaScript values flowing through the diagnostic payload are modelled by
`JValue`; `undefined` and `null` are identified (they behave the same under
`??` and `?.` in the modelled code), and NaN is a distinguished value.
Asynchronous effects (connect, ping, serverStatus, close) are modelled by an
environment `ProbeEnv` describing the outcome and timing of each awaited
operation; a thrown/rejected step is an `Except.error` carrying the message.
-/

/-- A JavaScript value as it appears in the diagnostic payload tree. -/
inductive JValue where
  | null
  | bool (b : Bool)
  | num (n : Int)
  | nan
  | str (s : String)
  | arr (elems : List JValue)
  | obj (fields : List (String × JValue))

/-- Property access `v?.k` / `v.k` on a non-nullish base: a lookup on an
object, `undefined` (modelled as `.null`) on everything else. -/
def JValue.getField : JValue → String → JValue
  | .obj fields, k =>
      match fields.find? (fun p => p.1 == k) with
      | some p => p.2
      | none => .null
  | _, _ => .null

/-- Nullish coalescing `v ?? d`: defaults only `null`/`undefined`. -/
def JValue.orDefault (v d : JValue) : JValue :=
  match v with
  | .null => d
  | _ => v

/-- JavaScript truthiness of a modelled value. -/
def JValue.truthy : JValue → Bool
  | .null => false
  | .bool b => b
  | .num n => n != 0
  | .nan => false
  | .str s => s != ""
  | _ => true

/-- JavaScript `*` restricted to the payload values the extractor multiplies:
numbers multiply exactly, anything non-numeric yields NaN. -/
def JValue.jsMul (a b : JValue) : JValue :=
  match a, b with
  | .num x, .num y => .num (x * y)
  | _, _ => .nan

/-- The keys of an object value, in order (empty for non-objects). -/
def JValue.objKeys : JValue → List String
  | .obj fields => fields.map Prod.fst
  | _ => []

/-- JavaScript `a || b` on an optional string: `b` when `a` is absent or
falsy (the empty string), otherwise `a`. -/
def strOr (a b : Option String) : Option String :=
  match a with
  | none => b
  | some s => if s = "" then b else some s

/-- JavaScript `a || d` on an optional string with a string default. -/
def strOrD (a : Option String) (d : String) : String :=
  match a with
  | none => d
  | some s => if s = "" then d else s

/-- Function `extractUptime`: `serverStatus?.uptime ?? 0`. -/
def extractUptime (serverStatus : JValue) : JValue :=
  (serverStatus.getField "uptime").orDefault (.num 0)

/-- Function `extractConnections`: every field of the `connections` section
defaults to `0` when absent. -/
def extractConnections (serverStatus : JValue) : JValue :=
  let connections := (serverStatus.getField "connections").orDefault (.obj [])
  .obj [
    ("current", (connections.getField "current").orDefault (.num 0)),
    ("available", (connections.getField "available").orDefault (.num 0)),
    ("totalCreated", (connections.getField "totalCreated").orDefault (.num 0)),
    ("active", (connections.getField "active").orDefault (.num 0)),
    ("threaded", (connections.getField "threaded").orDefault (.num 0)),
    ("exhaustIsMaster", (connections.getField "exhaustIsMaster").orDefault (.num 0)),
    ("exhaustHello", (connections.getField "exhaustHello").orDefault (.num 0)),
    ("awaitingTopologyChanges", (connections.getField "awaitingTopologyChanges").orDefault (.num 0))]

/-- Function `extractMemory`: the `mem` values are megabytes, converted to
bytes by multiplying twice by 1024; the tcmalloc fields default to `null`. -/
def extractMemory (serverStatus : JValue) : JValue :=
  let mem := (serverStatus.getField "mem").orDefault (.obj [])
  let tcmalloc := ((serverStatus.getField "tcmalloc").getField "generic").orDefault (.obj [])
  .obj [
    ("resident", (((mem.getField "resident").orDefault (.num 0)).jsMul (.num 1024)).jsMul (.num 1024)),
    ("virtual", (((mem.getField "virtual").orDefault (.num 0)).jsMul (.num 1024)).jsMul (.num 1024)),
    ("mapped", (((mem.getField "mapped").orDefault (.num 0)).jsMul (.num 1024)).jsMul (.num 1024)),
    ("mappedWithJournal",
      (((mem.getField "mappedWithJournal").orDefault (.num 0)).jsMul (.num 1024)).jsMul (.num 1024)),
    ("heapSize", (tcmalloc.getField "heap_size").orDefault .null),
    ("currentAllocated", (tcmalloc.getField "current_allocated_bytes").orDefault .null)]

/-- Function `extractNetwork`: network counters default to `0`. -/
def extractNetwork (serverStatus : JValue) : JValue :=
  let network := (serverStatus.getField "network").orDefault (.obj [])
  .obj [
    ("bytesIn", (network.getField "bytesIn").orDefault (.num 0)),
    ("bytesOut", (network.getField "bytesOut").orDefault (.num 0)),
    ("numRequests", (network.getField "numRequests").orDefault (.num 0)),
    ("physicalBytesIn", (network.getField "physicalBytesIn").orDefault (.num 0)),
    ("physicalBytesOut", (network.getField "physicalBytesOut").orDefault (.num 0))]

/-- Function `extractOperations`: opcounters default to `0`. -/
def extractOperations (serverStatus : JValue) : JValue :=
  let opcounters := (serverStatus.getField "opcounters").orDefault (.obj [])
  .obj [
    ("insert", (opcounters.getField "insert").orDefault (.num 0)),
    ("query", (opcounters.getField "query").orDefault (.num 0)),
    ("update", (opcounters.getField "update").orDefault (.num 0)),
    ("delete", (opcounters.getField "delete").orDefault (.num 0)),
    ("getmore", (opcounters.getField "getmore").orDefault (.num 0)),
    ("command", (opcounters.getField "command").orDefault (.num 0))]

/-- Function `extractStorageEngine`: name defaults to `unknown`, flags to
`false`. -/
def extractStorageEngine (serverStatus : JValue) : JValue :=
  let storageEngine := (serverStatus.getField "storageEngine").orDefault (.obj [])
  .obj [
    ("name", (storageEngine.getField "name").orDefault (.str "unknown")),
    ("persistent", (storageEngine.getField "persistent").orDefault (.bool false)),
    ("supportsCommittedReads",
      (storageEngine.getField "supportsCommittedReads").orDefault (.bool false))]

/-- Function `extractVersionInfo`: strings default to `unknown`, pid to `0`. -/
def extractVersionInfo (serverStatus : JValue) : JValue :=
  .obj [
    ("version", (serverStatus.getField "version").orDefault (.str "unknown")),
    ("process", (serverStatus.getField "process").orDefault (.str "unknown")),
    ("host", (serverStatus.getField "host").orDefault (.str "unknown")),
    ("pid", (serverStatus.getField "pid").orDefault (.num 0))]

/-- Function `extractReplicationInfo`: returns `null` when the payload has no
truthy `repl` section (not a replica set), distinct from a failed fetch. -/
def extractReplicationInfo (serverStatus : JValue) : JValue :=
  let repl := serverStatus.getField "repl"
  if repl.truthy = false then
    .null
  else
    .obj [
      ("setName", (repl.getField "setName").orDefault (.str "unknown")),
      ("ismaster", (repl.getField "ismaster").orDefault (.bool false)),
      ("secondary", (repl.getField "secondary").orDefault (.bool false)),
      ("primary", (repl.getField "primary").orDefault .null),
      ("hosts", (repl.getField "hosts").orDefault (.arr [])),
      ("me", (repl.getField "me").orDefault .null)]

/-- Result object of `pingDatabase`: `{ success, latency, error? }`. -/
structure PingRes where
  success : Bool
  latency : Nat
  error : Option String

/-- Outcome of awaiting `db.admin().command({ ping: 1 })`: it either
resolves after `latency` ms or rejects after `latency` ms with a message. -/
inductive PingBehavior where
  | ok (latency : Nat)
  | fail (latency : Nat) (err : String)

/-- Function `pingDatabase`: catches its own rejection and reports it in the
result. -/
def pingDatabase : PingBehavior → PingRes
  | .ok l => { success := true, latency := l, error := none }
  | .fail l e => { success := false, latency := l, error := some e }

/-- Result object of `getServerStatus`: `{ success, data? , error? }`
(the absent field is modelled as `.null` / `none`). -/
structure StatusRes where
  success : Bool
  data : JValue
  error : Option String

/-- Function `getServerStatus`: catches the rejection of the command and
reports it. -/
def getServerStatus : Except String JValue → StatusRes
  | .ok d => { success := true, data := d, error := none }
  | .error e => { success := false, data := .null, error := some e }

/-- Object `metrics` built by `compileHealthMetrics` on success. -/
structure Metrics where
  uptime : JValue
  connections : JValue
  memory : JValue
  network : JValue
  operations : JValue
  storageEngine : JValue
  version : JValue
  replication : JValue

/-- The object returned by `compileHealthMetrics`
(`metrics` is `null` exactly on the failure branch). -/
structure CompiledHealth where
  online : Bool
  ping : Nat
  error : Option String
  metrics : Option Metrics

/-- Function `compileHealthMetrics`: on a failed serverStatus, reports
`error = serverStatusResult.error || pingResult.error` and `metrics = null`;
on success, populates every metric group from the payload. -/
def compileHealthMetrics (pingResult : PingRes) (serverStatusResult : StatusRes) :
    CompiledHealth :=
  if serverStatusResult.success = false then
    { online := pingResult.success
      ping := pingResult.latency
      error := strOr serverStatusResult.error pingResult.error
      metrics := none }
  else
    let status := serverStatusResult.data
    { online := true
      ping := pingResult.latency
      error := none
      metrics := some {
        uptime := extractUptime status
        connections := extractConnections status
        memory := extractMemory status
        network := extractNetwork status
        operations := extractOperations status
        storageEngine := extractStorageEngine status
        version := extractVersionInfo status
        replication := extractReplicationInfo status } }

/-- An instance configuration from `config.js`:
`{ name, uri, authSource, timeoutMS }`. -/
structure InstanceConfig where
  name : String
  uri : String
  authSource : Option String
  timeoutMS : Option Nat

/-- The effective timeout `timeoutMS || 5000` (JavaScript `||`: a missing
or zero `timeoutMS` falls back to 5000). -/
def effTimeout (cfg : InstanceConfig) : Nat :=
  match cfg.timeoutMS with
  | none => 5000
  | some t => if t = 0 then 5000 else t

/-- The health-check result object built by `checkInstance`, with every
field initialised (`null` modelled by `none` / `.null`). -/
structure ProbeResult where
  name : String
  online : Bool
  ping : Option Nat
  uptime : JValue
  connections : JValue
  memory : JValue
  network : JValue
  operations : JValue
  storageEngine : JValue
  version : JValue
  replication : JValue
  error : Option String
  lastCheck : String

/-- Behaviour of the awaited `client.connect()` promise: it settles (resolves
or rejects) at time `t`, or never settles. -/
inductive ConnectBehavior where
  | settles (t : Nat) (outcome : Except String Unit)
  | never

/-- Environment describing the outcome and the timing of every awaited or
throwing operation one probe performs. `ctor` is `new MongoClient(uri, opts)`
(throws on a malformed URI), `close` the `client.close()` in the `finally`
(its failure is caught and ignored there), `now` the value
`getCurrentTimestamp()` returns during this probe. -/
structure ProbeEnv where
  ctor : Except String Unit
  connect : ConnectBehavior
  ping : PingBehavior
  serverStatus : Except String JValue
  statusTime : Nat
  close : Except String Unit
  closeTime : Nat
  now : String

/-- `Promise.race([connectPromise, timeoutPromise])` with the timer set to
`tm`: whichever settles first wins; a connect that has not settled before
the timer fires loses to a rejection carrying the message `Connection
timeout`. Returns the outcome of the race and the time at which it settled. -/
def raceConnect (b : ConnectBehavior) (tm : Nat) : Except String Unit × Nat :=
  match b with
  | .never => (.error "Connection timeout", tm)
  | .settles t o => if t < tm then (o, t) else (.error "Connection timeout", tm)

/-- The ledger side effect a probe performs: `recordSuccess(name)` at the end
of the `try` block or `recordFailure(name, reason)` in the `catch` block. -/
inductive LedgerOp where
  | success
  | failure (reason : String)

/-- What one probe invocation produces: the returned result object, the
ledger update it performed, and the elapsed wall-clock time. -/
structure ProbeOutcome where
  result : ProbeResult
  ledgerOp : LedgerOp
  elapsed : Nat

/-- The `result` object as initialised at the top of `checkInstance`. -/
def initResult (cfg : InstanceConfig) (env : ProbeEnv) : ProbeResult :=
  { name := cfg.name
    online := false
    ping := none
    uptime := .null
    connections := .null
    memory := .null
    network := .null
    operations := .null
    storageEngine := .null
    version := .null
    replication := .null
    error := none
    lastCheck := env.now }

/-- The `try` block of `checkInstance`: constructor, raced connect, ping
(throwing `pingResult.error || "Ping failed"` on a failed ping), serverStatus
and metric compilation. A throw is an `Except.error` carrying the message,
the `result` object as mutated so far, and the time spent; completion carries
the final `result` and the time spent. The `none` metrics branch is the
TypeError JavaScript would raise reading `health.metrics.uptime` of `null`;
it is unreachable because `compileHealthMetrics` only returns `metrics = null`
when `statusResult.success` is false. -/
def tryBody (env : ProbeEnv) (cfg : InstanceConfig) (r0 : ProbeResult) :
    Except (String × ProbeResult × Nat) (ProbeResult × Nat) :=
  match env.ctor with
  | .error e => .error (e, r0, 0)
  | .ok _ =>
    match raceConnect env.connect (effTimeout cfg) with
    | (.error e, t) => .error (e, r0, t)
    | (.ok _, t) =>
      let pingResult := pingDatabase env.ping
      if pingResult.success = false then
        .error (strOrD pingResult.error "Ping failed", r0, t + pingResult.latency)
      else
        let r1 := { r0 with ping := some pingResult.latency }
        let statusResult := getServerStatus env.serverStatus
        if statusResult.success = false then
          .ok ({ r1 with online := true, error := statusResult.error },
               t + pingResult.latency + env.statusTime)
        else
          let health := compileHealthMetrics pingResult statusResult
          match health.metrics with
          | none =>
            .error ("Cannot read properties of null (reading uptime)", r1,
                    t + pingResult.latency + env.statusTime)
          | some m =>
            .ok ({ r1 with online := true
                           uptime := m.uptime
                           connections := m.connections
                           memory := m.memory
                           network := m.network
                           operations := m.operations
                           storageEngine := m.storageEngine
                           version := m.version
                           replication := m.replication },
                 t + pingResult.latency + env.statusTime)

/-- `checkInstance`: the `try` body, its `catch` (mark offline, record the
failure) and its `finally` (close the client if one was constructed; a close
failure is caught inside the `finally` and changes nothing). The function is
total: every internal failure ends up in the `online`/`error` fields of the
result and in the `recordFailure` call of the catch. -/
def checkInstance (env : ProbeEnv) (cfg : InstanceConfig) : ProbeOutcome :=
  let r0 := initResult cfg env
  let closeT := if env.ctor.isOk then env.closeTime else 0
  match tryBody env cfg r0 with
  | .ok (r, t) =>
      { result := r, ledgerOp := .success, elapsed := t + closeT }
  | .error (e, r, t) =>
      { result := { r with online := false, error := some e }
        ledgerOp := .failure e
        elapsed := t + closeT }

/-- `checkAllInstances`: probes the instances sequentially, in input order,
pushing one result per instance. The source wraps each iteration in a
`try`/`catch`, but `checkInstance` is total (it never rejects), so the
catch branch is unreachable and each pushed result is the one built by
`checkInstance`. -/
def checkAllInstances (env : InstanceConfig → ProbeEnv) :
    List InstanceConfig → List ProbeResult
  | [] => []
  | cfg :: rest => (checkInstance (env cfg) cfg).result :: checkAllInstances env rest

/-- The summary object returned by `getStatusSummary`. -/
structure StatusSummary where
  total : Nat
  online : Nat
  offline : Nat
  status : String
  percentage : Int

/-- JavaScript `Math.round` on the (non-negative, exactly representable)
ratios the summary computes: round half away from zero, i.e. `⌊q + 1/2⌋`. -/
def jsRound (q : ℚ) : Int := ⌊q + 1 / 2⌋

/-- `getStatusSummary`: counts online results, classifies
`all_online` / `all_offline` / `partial`, and computes
`Math.round((online / total) * 100)` guarded by `total > 0`. -/
def getStatusSummary (results : List ProbeResult) : StatusSummary :=
  let total := results.length
  let online := (results.filter (fun r => r.online)).length
  let offline := total - online
  let status :=
    if online = total then "all_online"
    else if online = 0 then "all_offline"
    else "partial"
  { total := total
    online := online
    offline := offline
    status := status
    percentage := if total > 0 then jsRound ((online : ℚ) / (total : ℚ) * 100) else 0 }

/-- A `ReconnectRecord` in the reconnect-tracking map. -/
structure ReconnectRecord where
  attempts : Nat
  lastAttempt : Option String
  lastSuccess : Option String
  lastFailure : Option String
  failureReason : Option String
  consecutiveFailures : Nat

/-- The `reconnectInfo` map: insertion-ordered name/record pairs. -/
abbrev Ledger : Type := List (String × ReconnectRecord)

/-- `reconnectInfo.get(name)`. -/
def lookupInfo (l : Ledger) (name : String) : Option ReconnectRecord :=
  (List.find? (fun p => p.1 == name) l).map Prod.snd

/-- In-place mutation of the record stored under `name` (a no-op when the
name is not tracked, mirroring the `if (info)` guards). -/
def updateInfo (l : Ledger) (name : String) (f : ReconnectRecord → ReconnectRecord) :
    Ledger :=
  List.map (fun p => if p.1 = name then (p.1, f p.2) else p) l

/-- `initReconnectTracking`: insert a fresh all-zero record unless the name
is already tracked. -/
def initReconnectTracking (l : Ledger) (name : String) : Ledger :=
  if (lookupInfo l name).isSome then l
  else l ++ [(name,
    { attempts := 0
      lastAttempt := none
      lastSuccess := none
      lastFailure := none
      failureReason := none
      consecutiveFailures := 0 })]

/-- `recordSuccess(name)` at time `now`. -/
def recordSuccess (now : String) (l : Ledger) (name : String) : Ledger :=
  updateInfo l name (fun info =>
    { info with lastSuccess := some now
                consecutiveFailures := 0
                failureReason := none })

/-- `recordFailure(name, reason)` at time `now`. -/
def recordFailure (now : String) (l : Ledger) (name : String) (reason : String) :
    Ledger :=
  updateInfo l name (fun info =>
    { info with attempts := info.attempts + 1
                lastAttempt := some now
                lastFailure := some now
                consecutiveFailures := info.consecutiveFailures + 1
                failureReason := some reason })

/-- One mutating operation on the reconnect map. -/
inductive LedgerStep where
  | init (name : String)
  | success (now : String) (name : String)
  | failure (now : String) (name : String) (reason : String)

/-- Apply one ledger operation. -/
def applyStep (s : LedgerStep) (l : Ledger) : Ledger :=
  match s with
  | .init name => initReconnectTracking l name
  | .success now name => recordSuccess now l name
  | .failure now name reason => recordFailure now l name reason

/-- Example instance configuration used in concrete witnesses. -/
def cfgEx : InstanceConfig :=
  { name := "mongo-primary"
    uri := "mongodb://localhost:27017"
    authSource := some "admin"
    timeoutMS := some 3000 }

/-- Environment of a fully successful probe: the client constructs, connect
settles successfully after 10 ms, ping resolves in 5 ms, serverStatus
succeeds on an empty payload, close succeeds in 1 ms. -/
def envFullOk : ProbeEnv :=
  { ctor := .ok ()
    connect := .settles 10 (.ok ())
    ping := .ok 5
    serverStatus := .ok (.obj [])
    statusTime := 2
    close := .ok ()
    closeTime := 1
    now := "2025-01-01T00:00:00.000Z" }

/-- Environment of a partial-success probe: connect and ping succeed but the
serverStatus fetch fails. -/
def envStatusFail : ProbeEnv :=
  { envFullOk with serverStatus := .error "not authorized on admin" }

/-- Environment of a probe whose connect never settles. -/
def envConnectNever : ProbeEnv :=
  { envFullOk with connect := .never }

/-- An example online result, as a fully successful probe would build it. -/
def probeOnlineEx : ProbeResult :=
  { name := "mongo-primary"
    online := true
    ping := some 5
    uptime := .num 0
    connections := .null
    memory := .null
    network := .null
    operations := .null
    storageEngine := .null
    version := .null
    replication := .null
    error := none
    lastCheck := "2025-01-01T00:00:00.000Z" }

/-- An example offline result, as a timed-out probe would build it. -/
def probeOfflineEx : ProbeResult :=
  { name := "mongo-secondary"
    online := false
    ping := none
    uptime := .null
    connections := .null
    memory := .null
    network := .null
    operations := .null
    storageEngine := .null
    version := .null
    replication := .null
    error := some "Connection timeout"
    lastCheck := "2025-01-01T00:00:00.000Z" }

/-- A fleet of 200 results of which 199 are online. -/
def fleet200 : List ProbeResult := List.replicate 199 probeOnlineEx ++ [probeOfflineEx]

/-- An example reconnect record with prior failures. -/
def recEx : ReconnectRecord :=
  { attempts := 3
    lastAttempt := some "t1"
    lastSuccess := none
    lastFailure := some "t1"
    failureReason := some "connection refused"
    consecutiveFailures := 2 }

/-- An example reconnect map tracking one endpoint. -/
def ledgerEx : Ledger := [("mongo-primary", recEx)]

/-- Helper: `reconnectInfo.get` on a cons cell. -/
theorem lookupInfo_cons (p : String × ReconnectRecord) (rest : Ledger) (m : String) :
    lookupInfo (p :: rest) m = if p.1 = m then some p.2 else lookupInfo rest m := by
  by_cases h : p.1 = m
  · have hb : (p.1 == m) = true := beq_iff_eq.mpr h
    simp [lookupInfo, List.find?, hb, h]
  · have hb : (p.1 == m) = false := beq_eq_false_iff_ne.mpr h
    simp [lookupInfo, List.find?, hb, h]

/-- Helper: looking a name up after an in-place update of another (or the
same) record. -/
theorem lookupInfo_updateInfo (l : Ledger) (name m : String)
    (f : ReconnectRecord → ReconnectRecord) :
    lookupInfo (updateInfo l name f) m =
      if m = name then (lookupInfo l m).map f else lookupInfo l m := by
  induction l with
  | nil =>
    by_cases h : m = name <;> simp [lookupInfo, updateInfo, h]
  | cons p rest ih =>
    have hup : updateInfo (p :: rest) name f =
        (if p.1 = name then (p.1, f p.2) else p) :: updateInfo rest name f := by
      simp [updateInfo]
    rw [hup]
    by_cases hpn : p.1 = name
    · by_cases hpm : p.1 = m
      · have hmn : m = name := by rw [← hpm, hpn]
        rw [if_pos hpn, lookupInfo_cons, lookupInfo_cons, if_pos hpm, if_pos hpm,
            if_pos hmn]
        rfl
      · rw [if_pos hpn, lookupInfo_cons, lookupInfo_cons, if_neg hpm, if_neg hpm, ih]
    · by_cases hpm : p.1 = m
      · have hmn : ¬ m = name := fun h => hpn (by rw [hpm, h])
        rw [if_neg hpn, lookupInfo_cons, lookupInfo_cons, if_pos hpm, if_pos hpm,
            if_neg hmn]
      · rw [if_neg hpn, lookupInfo_cons, lookupInfo_cons, if_neg hpm, if_neg hpm, ih]

/-- Helper: a name found in the first part of an appended map is found in the
whole map with the same record. -/
theorem lookupInfo_append_left (l1 l2 : Ledger) (m : String)
    (r : ReconnectRecord) (h : lookupInfo l1 m = some r) :
    lookupInfo (l1 ++ l2) m = some r := by
  induction l1 with
  | nil => simp [lookupInfo] at h
  | cons p rest ih =>
    rw [List.cons_append, lookupInfo_cons]
    rw [lookupInfo_cons] at h
    by_cases hp : p.1 = m
    · rw [if_pos hp] at h ⊢; exact h
    · rw [if_neg hp] at h ⊢; exact ih h

/-- Helper: every probe lands in exactly one of three shapes — offline with
an error and the failure recorded, partial success (online, error set, no
metrics), or full success (online, all metric groups populated). -/
theorem checkInstance_char (env : ProbeEnv) (cfg : InstanceConfig) :
    (∃ e, (checkInstance env cfg).result =
            { initResult cfg env with online := false, error := some e } ∧
          (checkInstance env cfg).ledgerOp = .failure e) ∨
    (∃ e, (checkInstance env cfg).result =
            { initResult cfg env with
              ping := some (pingDatabase env.ping).latency, online := true,
              error := some e } ∧
          (checkInstance env cfg).ledgerOp = .success) ∨
    (∃ m : Metrics, (checkInstance env cfg).result =
            { initResult cfg env with
              ping := some (pingDatabase env.ping).latency, online := true,
              uptime := m.uptime, connections := m.connections, memory := m.memory,
              network := m.network, operations := m.operations,
              storageEngine := m.storageEngine,
              version := m.version, replication := m.replication } ∧
          (checkInstance env cfg).ledgerOp = .success) := by
  cases hct : env.ctor with
  | error e =>
    left
    exact ⟨e, by simp [checkInstance, tryBody, hct], by simp [checkInstance, tryBody, hct]⟩
  | ok u =>
    cases hcb : env.connect with
    | never =>
      left
      refine ⟨"Connection timeout", ?_, ?_⟩ <;>
        simp [checkInstance, tryBody, hct, hcb, raceConnect]
    | settles t o =>
      by_cases hlt : t < effTimeout cfg
      · cases o with
        | error e =>
          left
          refine ⟨e, ?_, ?_⟩ <;>
            simp [checkInstance, tryBody, hct, hcb, raceConnect, hlt]
        | ok v =>
          cases hp : env.ping with
          | fail l e =>
            left
            refine ⟨strOrD (some e) "Ping failed", ?_, ?_⟩ <;>
              simp [checkInstance, tryBody, hct, hcb, raceConnect, hlt, hp, pingDatabase]
          | ok l =>
            cases hs : env.serverStatus with
            | error e =>
              right; left
              refine ⟨e, ?_, ?_⟩ <;>
                simp [checkInstance, tryBody, hct, hcb, raceConnect, hlt, hp, hs,
                      pingDatabase, getServerStatus]
            | ok d =>
              right; right
              refine ⟨{ uptime := extractUptime d, connections := extractConnections d,
                        memory := extractMemory d, network := extractNetwork d,
                        operations := extractOperations d, storageEngine := extractStorageEngine d,
                        version := extractVersionInfo d, replication := extractReplicationInfo d },
                      ?_, ?_⟩ <;>
                simp [checkInstance, tryBody, hct, hcb, raceConnect, hlt, hp, hs,
                      pingDatabase, getServerStatus, compileHealthMetrics]
      · left
        refine ⟨"Connection timeout", ?_, ?_⟩ <;>
          simp [checkInstance, tryBody, hct, hcb, raceConnect, hlt]

/-- Claim C1, counterexample: on the empty results list `getStatusSummary`
classifies the status as `all_online` (the `online === total` branch fires
with `0 === 0`), not as the claimed `ALL_OFFLINE`-style status; only the
`percentage == 0` half of the claim holds. -/
theorem getStatusSummary_empty_counterexample :
    (getStatusSummary []).status = "all_online" ∧
    ¬ (getStatusSummary []).status = "all_offline" ∧
    (getStatusSummary []).percentage = 0 :=
  ⟨rfl, by decide, rfl⟩

/-- Claim C1 (amended): for an empty results list (`total == 0`),
`getStatusSummary` returns `percentage == 0` without dividing by zero, but
classifies the degenerate case as `all_online` (since `online == total == 0`
hits the first branch), not as an `ALL_OFFLINE`-style status. -/
theorem getStatusSummary_empty_all_online :
    getStatusSummary [] =
      { total := 0, online := 0, offline := 0, status := "all_online",
        percentage := 0 } := rfl

/-- Claim C2: `checkInstance` never throws — for every configuration and
every outcome of the constructor, connect, ping, serverStatus fetch and
close, it returns a `ProbeResult` carrying the configured name, and every
internal failure is captured only in the `online`/`error` fields of that
result (with the matching ledger side effect). -/
theorem checkInstance_never_throws (env : ProbeEnv) (cfg : InstanceConfig) :
    ∃ r : ProbeResult, (checkInstance env cfg).result = r ∧ r.name = cfg.name ∧
      ((r.online = true ∧ (checkInstance env cfg).ledgerOp = .success) ∨
       (r.online = false ∧ ∃ e, r.error = some e ∧
          (checkInstance env cfg).ledgerOp = .failure e)) := by
  rcases checkInstance_char env cfg with ⟨e, hr, hl⟩ | ⟨e, hr, hl⟩ | ⟨m, hr, hl⟩
  · exact ⟨_, hr, by simp [initResult], Or.inr ⟨by simp, e, by simp, hl⟩⟩
  · exact ⟨_, hr, by simp [initResult], Or.inl ⟨by simp, hl⟩⟩
  · exact ⟨_, hr, by simp [initResult], Or.inl ⟨by simp, hl⟩⟩

/-- Claim C3: invariant of every `checkInstance` result — when
`online = false` every metric group (uptime, connections, memory, network,
operations, storageEngine, version, replication) is absent (`null`), and
when `online = true` the ping is present. -/
theorem checkInstance_offline_no_metrics (env : ProbeEnv) (cfg : InstanceConfig) :
    ((checkInstance env cfg).result.online = false →
      (checkInstance env cfg).result.uptime = .null ∧
      (checkInstance env cfg).result.connections = .null ∧
      (checkInstance env cfg).result.memory = .null ∧
      (checkInstance env cfg).result.network = .null ∧
      (checkInstance env cfg).result.operations = .null ∧
      (checkInstance env cfg).result.storageEngine = .null ∧
      (checkInstance env cfg).result.version = .null ∧
      (checkInstance env cfg).result.replication = .null) ∧
    ((checkInstance env cfg).result.online = true →
      (checkInstance env cfg).result.ping ≠ none) := by
  rcases checkInstance_char env cfg with ⟨e, hr, _⟩ | ⟨e, hr, _⟩ | ⟨m, hr, _⟩
  · rw [hr]
    exact ⟨fun _ => by simp [initResult], fun h => by simp [initResult] at h⟩
  · rw [hr]
    exact ⟨fun h => by simp [initResult] at h, fun _ => by simp [initResult]⟩
  · rw [hr]
    exact ⟨fun h => by simp [initResult] at h, fun _ => by simp [initResult]⟩

/-- Claim C3, witness: a never-settling connect yields an offline result with
absent connections, and a fully successful probe has a present ping. -/
theorem checkInstance_offline_no_metrics_witness :
    (checkInstance envConnectNever cfgEx).result.connections = .null ∧
    (checkInstance envFullOk cfgEx).result.ping ≠ none :=
  ⟨((checkInstance_offline_no_metrics envConnectNever cfgEx).1 rfl).2.1,
   (checkInstance_offline_no_metrics envFullOk cfgEx).2 rfl⟩

/-- Claim C4: partial success — when the connection and the ping succeed but
the serverStatus fetch fails, `checkInstance` returns `online = true`, the
error set to the fetch failure, the ping recorded, and every typed metric
group absent. -/
theorem checkInstance_partial_success (env : ProbeEnv) (cfg : InstanceConfig)
    (t l : Nat) (e : String)
    (hct : env.ctor = .ok ())
    (hcb : env.connect = .settles t (.ok ()))
    (hlt : t < effTimeout cfg)
    (hp : env.ping = .ok l)
    (hs : env.serverStatus = .error e) :
    (checkInstance env cfg).result.online = true ∧
    (checkInstance env cfg).result.error = some e ∧
    (checkInstance env cfg).result.ping = some l ∧
    (checkInstance env cfg).result.uptime = .null ∧
    (checkInstance env cfg).result.connections = .null ∧
    (checkInstance env cfg).result.memory = .null ∧
    (checkInstance env cfg).result.network = .null ∧
    (checkInstance env cfg).result.operations = .null ∧
    (checkInstance env cfg).result.storageEngine = .null ∧
    (checkInstance env cfg).result.version = .null ∧
    (checkInstance env cfg).result.replication = .null := by
  simp [checkInstance, tryBody, hct, hcb, raceConnect, hlt, hp, hs,
        pingDatabase, getServerStatus, initResult]

/-- Claim C4, witness: the partial-success theorem applied to a concrete
environment whose serverStatus fetch fails. -/
theorem checkInstance_partial_success_witness :
    (checkInstance envStatusFail cfgEx).result.online = true ∧
    (checkInstance envStatusFail cfgEx).result.error = some "not authorized on admin" ∧
    (checkInstance envStatusFail cfgEx).result.connections = .null := by
  have h := checkInstance_partial_success envStatusFail cfgEx 10 5
    "not authorized on admin" rfl rfl (by decide) rfl rfl
  exact ⟨h.1, h.2.1, h.2.2.2.2.1⟩

/-- Claim C5: `checkAllInstances` probes sequentially in input order and
returns exactly one result per configuration, in that order; the result at
every index is determined solely by that configuration and its own
environment, so the failure of one endpoint never aborts, skips, or alters
the result of any other. -/
theorem checkAllInstances_ordered (env : InstanceConfig → ProbeEnv)
    (cfgs : List InstanceConfig) :
    (checkAllInstances env cfgs).length = cfgs.length ∧
    ∀ i : Nat, (checkAllInstances env cfgs)[i]? =
      (cfgs[i]?).map (fun c => (checkInstance (env c) c).result) := by
  induction cfgs with
  | nil => exact ⟨rfl, fun i => by simp [checkAllInstances]⟩
  | cons c rest ih =>
    refine ⟨by simp [checkAllInstances, ih.1], ?_⟩
    intro i
    cases i with
    | zero => simp [checkAllInstances]
    | succ j => simp [checkAllInstances, ih.2 j]

/-- Claim C6: on every non-empty results list, status is `all_online` iff
every result is online, `all_offline` iff none is, `partial` otherwise, and
the percentage is `100 * online / total` rounded half up. -/
theorem getStatusSummary_classification (rs : List ProbeResult) (h : rs ≠ []) :
    ((getStatusSummary rs).status = "all_online" ↔
      (rs.filter (fun r => r.online)).length = rs.length) ∧
    ((getStatusSummary rs).status = "all_offline" ↔
      (rs.filter (fun r => r.online)).length = 0) ∧
    ((getStatusSummary rs).status = "partial" ↔
      ((rs.filter (fun r => r.online)).length ≠ rs.length ∧
       (rs.filter (fun r => r.online)).length ≠ 0)) ∧
    (getStatusSummary rs).percentage =
      ⌊100 * ((rs.filter (fun r => r.online)).length : ℚ) / (rs.length : ℚ) + 1 / 2⌋ := by
  have hn : 0 < rs.length := List.length_pos.mpr h
  have hs : (getStatusSummary rs).status =
      (if (rs.filter (fun r => r.online)).length = rs.length then "all_online"
       else if (rs.filter (fun r => r.online)).length = 0 then "all_offline"
       else "partial") := rfl
  have hp : (getStatusSummary rs).percentage =
      ⌊100 * ((rs.filter (fun r => r.online)).length : ℚ) / (rs.length : ℚ) + 1 / 2⌋ := by
    have hq : (getStatusSummary rs).percentage =
        jsRound (((rs.filter (fun r => r.online)).length : ℚ) / (rs.length : ℚ) * 100) := by
      show (if rs.length > 0 then _ else _) = _
      rw [if_pos hn]
    rw [hq, jsRound, div_mul_eq_mul_div, mul_comm]
  by_cases h1 : (rs.filter (fun r => r.online)).length = rs.length
  · have st : (getStatusSummary rs).status = "all_online" := by rw [hs, if_pos h1]
    refine ⟨by simp [st, h1], ?_, ?_, hp⟩
    · rw [st]
      constructor
      · intro hq; exact absurd hq (by decide)
      · intro h0; exact absurd rfl (by omega : ¬(0 : ℕ) = 0)
    · rw [st]
      constructor
      · intro hq; exact absurd hq (by decide)
      · intro h0; exact absurd h1 h0.1
  · have hs2 : (getStatusSummary rs).status =
        (if (rs.filter (fun r => r.online)).length = 0 then "all_offline" else "partial") := by
      rw [hs, if_neg h1]
    by_cases h2 : (rs.filter (fun r => r.online)).length = 0
    · have st : (getStatusSummary rs).status = "all_offline" := by rw [hs2, if_pos h2]
      refine ⟨?_, by simp [st, h2], ?_, hp⟩
      · rw [st]
        constructor
        · intro hq; exact absurd hq (by decide)
        · intro hq; exact absurd hq h1
      · rw [st]
        constructor
        · intro hq; exact absurd hq (by decide)
        · intro hq; exact absurd h2 hq.2
    · have st : (getStatusSummary rs).status = "partial" := by rw [hs2, if_neg h2]
      refine ⟨?_, ?_, by simp [st, h1, h2], hp⟩
      · rw [st]
        constructor
        · intro hq; exact absurd hq (by decide)
        · intro hq; exact absurd hq h1
      · rw [st]
        constructor
        · intro hq; exact absurd hq (by decide)
        · intro hq; exact absurd hq h2

/-- Claim C6, witness: the classification theorem applied to the singleton
online fleet. -/
theorem getStatusSummary_classification_witness :
    (getStatusSummary [probeOnlineEx]).status = "all_online" ∧
    (getStatusSummary [probeOnlineEx]).percentage = 100 :=
  ⟨(getStatusSummary_classification [probeOnlineEx] (by simp)).1.mpr rfl,
   by
    rw [(getStatusSummary_classification [probeOnlineEx] (by simp)).2.2.2]
    norm_num [probeOnlineEx]⟩

/-- Claim C7: for a tracked endpoint, `recordSuccess` sets `lastSuccess` to
now, zeroes `consecutiveFailures` and clears `failureReason` while leaving
`attempts` (and the other fields) unchanged; `recordFailure` increments
`attempts` and `consecutiveFailures`, stamps `lastAttempt` and `lastFailure`
and sets `failureReason`; and no ledger operation ever decreases
`attempts`. -/
theorem ledger_record_ops (now : String) (l : Ledger) (name reason : String)
    (rec : ReconnectRecord) (h : lookupInfo l name = some rec) :
    lookupInfo (recordSuccess now l name) name =
      some { rec with
             lastSuccess := some now
             consecutiveFailures := 0
             failureReason := none } ∧
    lookupInfo (recordFailure now l name reason) name =
      some { rec with
             attempts := rec.attempts + 1
             lastAttempt := some now
             lastFailure := some now
             consecutiveFailures := rec.consecutiveFailures + 1
             failureReason := some reason } ∧
    ∀ (s : LedgerStep) (rec' : ReconnectRecord),
      lookupInfo (applyStep s l) name = some rec' → rec.attempts ≤ rec'.attempts := by
  refine ⟨?_, ?_, ?_⟩
  · rw [recordSuccess, lookupInfo_updateInfo, if_pos rfl, h]; rfl
  · rw [recordFailure, lookupInfo_updateInfo, if_pos rfl, h]; rfl
  · intro s rec' h'
    cases s with
    | init n =>
      rw [applyStep, initReconnectTracking] at h'
      by_cases hn : (lookupInfo l n).isSome
      · rw [if_pos hn, h] at h'
        cases h'
        exact le_refl _
      · rw [if_neg hn, lookupInfo_append_left l _ name rec h] at h'
        cases h'
        exact le_refl _
    | success now' n =>
      rw [applyStep, recordSuccess, lookupInfo_updateInfo] at h'
      by_cases hn : name = n
      · rw [if_pos hn, h] at h'
        cases h'
        exact le_refl _
      · rw [if_neg hn, h] at h'
        cases h'
        exact le_refl _
    | failure now' n reason' =>
      rw [applyStep, recordFailure, lookupInfo_updateInfo] at h'
      by_cases hn : name = n
      · rw [if_pos hn, h] at h'
        cases h'
        exact Nat.le_succ _
      · rw [if_neg hn, h] at h'
        cases h'
        exact le_refl _

/-- Claim C7, witness: the ledger theorem applied to a concrete record with
three attempts and two consecutive failures. -/
theorem ledger_record_ops_witness :
    lookupInfo (recordSuccess "t2" ledgerEx "mongo-primary") "mongo-primary" =
      some { attempts := 3
             lastAttempt := some "t1"
             lastSuccess := some "t2"
             lastFailure := some "t1"
             failureReason := none
             consecutiveFailures := 0 } ∧
    lookupInfo (recordFailure "t2" ledgerEx "mongo-primary" "host unreachable")
        "mongo-primary" =
      some { attempts := 4
             lastAttempt := some "t2"
             lastSuccess := none
             lastFailure := some "t2"
             failureReason := some "host unreachable"
             consecutiveFailures := 3 } :=
  ⟨(ledger_record_ops "t2" ledgerEx "mongo-primary" "host unreachable" recEx rfl).1,
   (ledger_record_ops "t2" ledgerEx "mongo-primary" "host unreachable" recEx rfl).2.1⟩

/-- Claim C8: when the connect does not settle before the effective bound
elapses, `checkInstance` reports the endpoint offline with the error
`Connection timeout` (a message mentioning timeout), records that failure,
and the probe returns after exactly the effective timeout plus the cleanup
time of the close. -/
theorem checkInstance_timeout (env : ProbeEnv) (cfg : InstanceConfig)
    (hct : env.ctor = .ok ())
    (hlate : ∀ t o, env.connect = .settles t o → effTimeout cfg ≤ t) :
    (checkInstance env cfg).result.online = false ∧
    (checkInstance env cfg).result.error = some "Connection timeout" ∧
    (∃ pre post, (checkInstance env cfg).result.error = some (pre ++ "timeout" ++ post)) ∧
    (checkInstance env cfg).ledgerOp = .failure "Connection timeout" ∧
    (checkInstance env cfg).elapsed = effTimeout cfg + env.closeTime := by
  cases hcb : env.connect with
  | never =>
    refine ⟨?_, ?_, ⟨"Connection ", "", ?_⟩, ?_, ?_⟩ <;>
      simp [checkInstance, tryBody, hct, hcb, raceConnect, Except.isOk, Except.toBool]
  | settles t o =>
    have hlt : ¬ t < effTimeout cfg := not_lt.mpr (hlate t o hcb)
    refine ⟨?_, ?_, ⟨"Connection ", "", ?_⟩, ?_, ?_⟩ <;>
      simp [checkInstance, tryBody, hct, hcb, raceConnect, hlt, Except.isOk, Except.toBool]

/-- Claim C8, witness: the timeout theorem applied to a never-settling
connect under a 3000 ms configured bound and 1 ms close. -/
theorem checkInstance_timeout_witness :
    (checkInstance envConnectNever cfgEx).result.online = false ∧
    (checkInstance envConnectNever cfgEx).result.error = some "Connection timeout" ∧
    (checkInstance envConnectNever cfgEx).elapsed = 3001 := by
  have h := checkInstance_timeout envConnectNever cfgEx rfl (fun t o hh => nomatch hh)
  exact ⟨h.1, h.2.1, by rw [h.2.2.2.2]; rfl⟩

/-- Claim C9: the metrics extractor is total and degrades field by field —
for every payload each extraction function returns an object with exactly
the documented keys (replication alone may report `null` for a non-replica
deployment); a payload missing the connections section yields the all-zero
connections object, not an absent field and not a failure, and
`compileHealthMetrics` on such a payload still populates `metrics` with
those defaults. -/
theorem extractor_total_defaults (s : JValue) (p : PingRes) :
    (extractConnections s).objKeys = ["current", "available", "totalCreated", "active",
      "threaded", "exhaustIsMaster", "exhaustHello", "awaitingTopologyChanges"] ∧
    (extractMemory s).objKeys = ["resident", "virtual", "mapped", "mappedWithJournal",
      "heapSize", "currentAllocated"] ∧
    (extractNetwork s).objKeys = ["bytesIn", "bytesOut", "numRequests",
      "physicalBytesIn", "physicalBytesOut"] ∧
    (extractOperations s).objKeys = ["insert", "query", "update", "delete",
      "getmore", "command"] ∧
    (extractStorageEngine s).objKeys = ["name", "persistent", "supportsCommittedReads"] ∧
    (extractVersionInfo s).objKeys = ["version", "process", "host", "pid"] ∧
    (extractReplicationInfo s = .null ∨
      (extractReplicationInfo s).objKeys = ["setName", "ismaster", "secondary",
        "primary", "hosts", "me"]) ∧
    (s.getField "uptime" = .null → extractUptime s = .num 0) ∧
    (s.getField "connections" = .null →
      extractConnections s = .obj [("current", .num 0), ("available", .num 0),
        ("totalCreated", .num 0), ("active", .num 0), ("threaded", .num 0),
        ("exhaustIsMaster", .num 0), ("exhaustHello", .num 0),
        ("awaitingTopologyChanges", .num 0)]) ∧
    (∀ e, s.getField "connections" = .null →
      ∃ m, (compileHealthMetrics p { success := true, data := s, error := e }).metrics
              = some m ∧
        m.connections = .obj [("current", .num 0), ("available", .num 0),
          ("totalCreated", .num 0), ("active", .num 0), ("threaded", .num 0),
          ("exhaustIsMaster", .num 0), ("exhaustHello", .num 0),
          ("awaitingTopologyChanges", .num 0)]) := by
  have hconn : s.getField "connections" = .null →
      extractConnections s = .obj [("current", .num 0), ("available", .num 0),
        ("totalCreated", .num 0), ("active", .num 0), ("threaded", .num 0),
        ("exhaustIsMaster", .num 0), ("exhaustHello", .num 0),
        ("awaitingTopologyChanges", .num 0)] := by
    intro h
    have h2 : (s.getField "connections").orDefault (.obj []) = .obj [] := by
      rw [h]; rfl
    simp only [extractConnections, h2]
    rfl
  refine ⟨rfl, rfl, rfl, rfl, rfl, rfl, ?_, ?_, hconn, ?_⟩
  · rw [extractReplicationInfo]
    by_cases h : (s.getField "repl").truthy = false
    · left; rw [if_pos h]
    · right; rw [if_neg h]; rfl
  · intro h
    rw [extractUptime, h]; rfl
  · intro e h
    refine ⟨{ uptime := extractUptime s
              connections := extractConnections s
              memory := extractMemory s
              network := extractNetwork s
              operations := extractOperations s
              storageEngine := extractStorageEngine s
              version := extractVersionInfo s
              replication := extractReplicationInfo s }, ?_, ?_⟩
    · rfl
    · exact hconn h

/-- Claim C9, witness: the extractor theorem applied to the empty payload. -/
theorem extractor_total_defaults_witness :
    extractUptime (.obj []) = .num 0 ∧
    extractConnections (.obj []) = .obj [("current", .num 0), ("available", .num 0),
      ("totalCreated", .num 0), ("active", .num 0), ("threaded", .num 0),
      ("exhaustIsMaster", .num 0), ("exhaustHello", .num 0),
      ("awaitingTopologyChanges", .num 0)] :=
  ⟨(extractor_total_defaults (.obj []) (pingDatabase (.ok 5))).2.2.2.2.2.2.2.1 rfl,
   (extractor_total_defaults (.obj []) (pingDatabase (.ok 5))).2.2.2.2.2.2.2.2.1 rfl⟩

set_option maxRecDepth 10000 in
/-- Claim C10: `percentage == 100` does not imply `all_online` — with 199 of
200 results online the summary rounds `99.5` up to `100` while the status is
`partial`. -/
theorem getStatusSummary_percentage_rounding :
    (getStatusSummary fleet200).total = 200 ∧
    (getStatusSummary fleet200).online = 199 ∧
    (getStatusSummary fleet200).status = "partial" ∧
    (getStatusSummary fleet200).percentage = 100 := by
  refine ⟨rfl, rfl, rfl, ?_⟩
  norm_num [getStatusSummary, jsRound, fleet200, List.filter_replicate,
            probeOnlineEx, probeOfflineEx]
